import Mathlib

/-!
Verification development for the `repo-tokenizer` Python SDK client
(`src/sdk/python/client.py`).  The client is a thin wrapper around a remote
HTTP service: it assembles request paths with percent-encoded query
parameters, issues a GET via `urllib.request`, and decodes JSON responses.

This file shallowly embeds the client's URL/query construction and its
response-decoding primitive `_request`, together with executable models of
the Python standard-library functions the client calls
(`urllib.parse.quote`, `urllib.parse.urlencode` with its default
`quote_plus`, `str()` on parameter values, and `json.loads` restricted to
the JSON fragment without floating-point numbers, which no property here
touches).
-/

/-- Values a query parameter can hold in the client: Python `None`, a
string, or an integer (`max_tokens`).  `str` and `int` mirror the Python
types that actually flow into the parameter dictionaries. -/
inductive PyVal where
  | none
  | str (s : String)
  | int (n : Int)
deriving DecidableEq

/-- Python truthiness for the values above: `None`, `""` and `0` are falsy.
Used by the `if v` dictionary comprehension in `list_files` and by the
`if ref:` / `if path_glob:` statements. -/
def truthy : PyVal → Bool
  | PyVal.none => false
  | PyVal.str s => !(s == "")
  | PyVal.int n => !(n == 0)

/-- The `v is not None` test used by the `list_chunks` comprehension. -/
def isNone : PyVal → Bool
  | PyVal.none => true
  | _ => false

/-- Python `str()` applied to a parameter value, as `urlencode` does before
encoding (only non-`None` values reach it in the client). -/
def pyStr : PyVal → String
  | PyVal.none => "None"
  | PyVal.str s => s
  | PyVal.int n => toString n

/-- An `Optional[str]` argument as the `PyVal` stored in a parameter dict. -/
def optStr : Option String → PyVal
  | Option.some s => PyVal.str s
  | Option.none => PyVal.none

/-- An `Optional[int]` argument as the `PyVal` stored in a parameter dict. -/
def optInt : Option Int → PyVal
  | Option.some n => PyVal.int n
  | Option.none => PyVal.none

/-- UTF-8 encoding of a Unicode code point, as a list of byte values.
Models the `encoding="utf-8"` step of `urllib.parse.quote`. -/
def utf8Bytes (c : Nat) : List Nat :=
  if c < 0x80 then [c]
  else if c < 0x800 then [0xC0 + c / 64, 0x80 + c % 64]
  else if c < 0x10000 then
    [0xE0 + c / 4096, 0x80 + (c / 64) % 64, 0x80 + c % 64]
  else
    [0xF0 + c / 262144, 0x80 + (c / 4096) % 64, 0x80 + (c / 64) % 64,
     0x80 + c % 64]

/-- The bytes `urllib.parse.quote` never encodes: ASCII letters, digits,
and `_ . - ~`. -/
def isSafeByte (b : Nat) : Bool :=
  (65 ≤ b && b ≤ 90) || (97 ≤ b && b ≤ 122) || (48 ≤ b && b ≤ 57) ||
  b == 45 || b == 46 || b == 95 || b == 126

/-- Uppercase hexadecimal digit, as in the `%XX` escapes that
`urllib.parse.quote` emits. -/
def hexDigit (n : Nat) : Char :=
  if n < 10 then Char.ofNat (48 + n) else Char.ofNat (55 + n)

/-- One byte of `urllib.parse.quote` output: kept verbatim when safe or in
the extra `safe` set, otherwise `%XX` with uppercase hex. -/
def quoteByte (safe : List Nat) (b : Nat) : String :=
  if isSafeByte b || safe.contains b then String.singleton (Char.ofNat b)
  else "%" ++ String.singleton (hexDigit (b / 16)) ++
    String.singleton (hexDigit (b % 16))

/-- `urllib.parse.quote` on one character: encode its UTF-8 bytes. -/
def quoteChar (safe : List Nat) (c : Char) : String :=
  (utf8Bytes c.toNat).foldr (fun b acc => quoteByte safe b ++ acc) ""

/-- `urllib.parse.quote` over a character list. -/
def quoteChars (safe : List Nat) : List Char → String
  | [] => ""
  | c :: cs => quoteChar safe c ++ quoteChars safe cs

/-- `urllib.parse.quote(s)` with its default `safe="/"` (byte 47), as used
by `get_chunk` for the chunk id and the path-segment `ref`. -/
def quote (s : String) : String := quoteChars [47] s.data

/-- `urllib.parse.quote_plus` over a character list: space becomes `+`,
everything else is quoted with an empty safe set. -/
def quotePlusChars : List Char → String
  | [] => ""
  | c :: cs =>
    (if c = ' ' then "+" else quoteChar [] c) ++ quotePlusChars cs

/-- `urllib.parse.quote_plus(s)`, the encoder `urlencode` applies to every
key and value by default. -/
def quotePlus (s : String) : String := quotePlusChars s.data

/-- One `key=value` item of `urllib.parse.urlencode` output. -/
def urlencodePair (p : String × PyVal) : String :=
  quotePlus p.1 ++ "=" ++ quotePlus (pyStr p.2)

/-- `urllib.parse.urlencode(params)`: `&`-joined `key=value` items in
insertion order, keys and values `quote_plus`-encoded. -/
def urlencode : List (String × PyVal) → String
  | [] => ""
  | [p] => urlencodePair p
  | p :: ps => urlencodePair p ++ "&" ++ urlencode ps

/-- The parameter dict built by `list_files` (client.py line 25): the
comprehension keeps an entry only when its value is truthy (`if v`). -/
def listFilesParams (inc exc ref : Option String) : List (String × PyVal) :=
  [("include", optStr inc), ("exclude", optStr exc),
   ("ref", optStr ref)].filter (fun p => truthy p.2)

/-- The path requested by `list_files` (client.py lines 26-27): `?query`
only when the dict is nonempty. -/
def listFilesPath (inc exc ref : Option String) : String :=
  let params := listFilesParams inc exc ref
  let query := if params.isEmpty then "" else "?" ++ urlencode params
  "/files" ++ query

/-- The parameter dict built by `list_chunks` (client.py lines 30-35): the
comprehension keeps an entry whenever `v is not None` — unlike every other
operation it does NOT test truthiness. -/
def listChunksParams (path lang ref : Option String)
    (max_tokens : Option Int) : List (String × PyVal) :=
  [("path", optStr path), ("lang", optStr lang), ("ref", optStr ref),
   ("maxTokens", optInt max_tokens)].filter (fun p => !(isNone p.2))

/-- The path requested by `list_chunks` (client.py lines 36-37). -/
def listChunksPath (path lang ref : Option String)
    (max_tokens : Option Int) : String :=
  let params := listChunksParams path lang ref max_tokens
  let query := if params.isEmpty then "" else "?" ++ urlencode params
  "/chunks" ++ query

/-- The parameter dict built by `get_file` (client.py lines 40-42):
`path` unconditionally, `ref` only when truthy (`if ref:`). -/
def getFileParams (path : String) (ref : Option String) :
    List (String × PyVal) :=
  [("path", PyVal.str path)] ++
    (if truthy (optStr ref) then [("ref", optStr ref)] else [])

/-- The path requested by `get_file` (client.py lines 43-44): the `?` is
emitted unconditionally. -/
def getFilePath (path : String) (ref : Option String) : String :=
  "/file?" ++ urlencode (getFileParams path ref)

/-- The path requested by `get_chunk` (client.py lines 47-48): the chunk id
is `quote`-encoded into the path, and a truthy `ref` is `quote`-encoded
into a hand-built `?ref=` query. -/
def getChunkPath (chunk_id : String) (ref : Option String) : String :=
  let query := match ref with
    | Option.some r => if r == "" then "" else "?ref=" ++ quote r
    | Option.none => ""
  "/chunks/" ++ quote chunk_id ++ query

/-- The parameter dict built by `search` (client.py lines 51-55): `q`
unconditionally, `pathGlob` and `ref` only when truthy. -/
def searchParams (query_text : String) (path_glob ref : Option String) :
    List (String × PyVal) :=
  [("q", PyVal.str query_text)] ++
    (if truthy (optStr path_glob) then [("pathGlob", optStr path_glob)]
     else []) ++
    (if truthy (optStr ref) then [("ref", optStr ref)] else [])

/-- The path requested by `search` (client.py lines 56-57): the `?` is
emitted unconditionally. -/
def searchPath (query_text : String) (path_glob ref : Option String) :
    String :=
  "/search?" ++ urlencode (searchParams query_text path_glob ref)

/-- The parameter dict built by `search_symbols` (client.py lines 60-64):
`q` and `ref` only when truthy. -/
def searchSymbolsParams (query_text ref : Option String) :
    List (String × PyVal) :=
  (if truthy (optStr query_text) then [("q", optStr query_text)] else []) ++
    (if truthy (optStr ref) then [("ref", optStr ref)] else [])

/-- The path requested by `search_symbols` (client.py lines 65-66). -/
def searchSymbolsPath (query_text ref : Option String) : String :=
  let params := searchSymbolsParams query_text ref
  let query := if params.isEmpty then "" else "?" ++ urlencode params
  "/search/symbols" ++ query

/-- JSON values as `json.loads` produces them, with integers standing in
for JSON numbers (floating-point literals are outside this model; no
property below involves numbers beyond integers). -/
inductive Json where
  | null
  | bool (b : Bool)
  | num (n : Int)
  | str (s : String)
  | arr (elems : List Json)
  | obj (fields : List (String × Json))

/-- JSON whitespace accepted between tokens by `json.loads`. -/
def isJsonWs (c : Char) : Bool :=
  c = ' ' || c = '\t' || c = '\n' || c = '\r'

/-- Drop leading JSON whitespace. -/
def skipWs : List Char → List Char
  | [] => []
  | c :: cs => if isJsonWs c then skipWs cs else c :: cs

/-- Value of one hexadecimal digit in a `\uXXXX` escape. -/
def hexVal (c : Char) : Option Nat :=
  let n := c.toNat
  if 48 ≤ n && n ≤ 57 then Option.some (n - 48)
  else if 65 ≤ n && n ≤ 70 then Option.some (n - 55)
  else if 97 ≤ n && n ≤ 102 then Option.some (n - 87)
  else Option.none

/-- The character a single-letter escape denotes, `\u` excluded. -/
def escChar : Char → Option Char
  | '"' => Option.some '"'
  | '\\' => Option.some '\\'
  | '/' => Option.some '/'
  | 'b' => Option.some (Char.ofNat 8)
  | 'f' => Option.some (Char.ofNat 12)
  | 'n' => Option.some '\n'
  | 'r' => Option.some '\r'
  | 't' => Option.some '\t'
  | _ => Option.none

/-- Body of a JSON string after the opening quote: returns the decoded
string and the input after the closing quote.  Raw control characters are
rejected, as `json.loads` does in its default strict mode. -/
def parseStringBody : List Char → Option (String × List Char)
  | [] => Option.none
  | '"' :: rest => Option.some ("", rest)
  | '\\' :: 'u' :: a :: b :: c :: d :: rest => do
    let ha ← hexVal a
    let hb ← hexVal b
    let hc ← hexVal c
    let hd ← hexVal d
    let (s, r) ← parseStringBody rest
    pure (String.singleton (Char.ofNat (((ha * 16 + hb) * 16 + hc) * 16 + hd)) ++ s, r)
  | '\\' :: e :: rest => do
    let ch ← escChar e
    let (s, r) ← parseStringBody rest
    pure (String.singleton ch ++ s, r)
  | c :: rest =>
    if c.toNat < 32 then Option.none
    else (parseStringBody rest).map (fun p => (String.singleton c ++ p.1, p.2))

/-- Digits of a decimal numeral folded into a `Nat`. -/
def digitsToNat (ds : List Char) : Nat :=
  ds.foldl (fun a c => a * 10 + (c.toNat - 48)) 0

/-- Unsigned integer part of a JSON number: a single `0`, or a nonzero
digit followed by digits (leading zeros rejected, as `json.loads` does). -/
def parseUNat : List Char → Option (Nat × List Char)
  | [] => Option.none
  | '0' :: rest =>
    match rest with
    | d :: _ => if d.isDigit then Option.none else Option.some (0, rest)
    | [] => Option.some (0, [])
  | c :: rest =>
    if c.isDigit then
      let p := rest.span Char.isDigit
      Option.some (digitsToNat (c :: p.1), p.2)
    else Option.none

/-- A JSON integer with optional leading minus. -/
def parseIntTok (cs : List Char) : Option (Int × List Char) :=
  match cs with
  | '-' :: rest => (parseUNat rest).map (fun p => (-(p.1 : Int), p.2))
  | _ => (parseUNat cs).map (fun p => ((p.1 : Int), p.2))

mutual
/-- One JSON value, fuel-bounded recursive descent mirroring `json.loads`. -/
def parseValue : Nat → List Char → Option (Json × List Char)
  | 0, _ => Option.none
  | Nat.succ fuel, cs =>
    match skipWs cs with
    | 'n' :: 'u' :: 'l' :: 'l' :: rest => Option.some (Json.null, rest)
    | 't' :: 'r' :: 'u' :: 'e' :: rest =>
      Option.some (Json.bool true, rest)
    | 'f' :: 'a' :: 'l' :: 's' :: 'e' :: rest =>
      Option.some (Json.bool false, rest)
    | '"' :: rest =>
      (parseStringBody rest).map (fun p => (Json.str p.1, p.2))
    | '[' :: rest =>
      (match skipWs rest with
       | ']' :: r => Option.some (Json.arr [], r)
       | _ => (parseElems fuel rest).map (fun p => (Json.arr p.1, p.2)))
    | '\x7b' :: rest =>
      (match skipWs rest with
       | '\x7d' :: r => Option.some (Json.obj [], r)
       | _ => (parseFields fuel rest).map (fun p => (Json.obj p.1, p.2)))
    | other => (parseIntTok other).map (fun p => (Json.num p.1, p.2))

/-- Comma-separated array elements up to the closing `]`. -/
def parseElems : Nat → List Char → Option (List Json × List Char)
  | 0, _ => Option.none
  | Nat.succ fuel, cs => do
    let (v, rest) ← parseValue fuel cs
    match skipWs rest with
    | ',' :: rest2 =>
      (parseElems fuel rest2).map (fun p => (v :: p.1, p.2))
    | ']' :: rest2 => Option.some ([v], rest2)
    | _ => Option.none

/-- Comma-separated `"key": value` members up to the closing brace. -/
def parseFields : Nat → List Char →
    Option (List (String × Json) × List Char)
  | 0, _ => Option.none
  | Nat.succ fuel, cs =>
    match skipWs cs with
    | '"' :: rest => do
      let (k, rest1) ← parseStringBody rest
      match skipWs rest1 with
      | ':' :: rest2 => do
        let (v, rest3) ← parseValue fuel rest2
        match skipWs rest3 with
        | ',' :: rest4 =>
          (parseFields fuel rest4).map (fun p => ((k, v) :: p.1, p.2))
        | '\x7d' :: rest4 => Option.some ([(k, v)], rest4)
        | _ => Option.none
      | _ => Option.none
    | _ => Option.none
end

/-- `json.loads`: parse one JSON document and reject trailing data.  The
fuel `2 * length + 2` dominates the recursion depth: every two fuel steps
consume at least one input character. -/
def json_loads (s : String) : Option Json :=
  match parseValue (2 * s.length + 2) s.data with
  | Option.some (j, rest) =>
    if (skipWs rest).isEmpty then Option.some j else Option.none
  | Option.none => Option.none

/-- An HTTP response as `_request` observes it: the status code and the
UTF-8-decoded body (a body that is not valid UTF-8 fails in the transport
layer before the logic modelled here runs). -/
structure HttpResponse where
  status : Nat
  body : String

/-- The failures `_request` can produce: the `RuntimeError` carrying only
the numeric status (client.py line 18), or a `json.loads` parse failure
propagating (line 22). -/
inductive ReqError where
  | httpError (status : Nat)
  | parseFailure
deriving DecidableEq

/-- `_request` after the response arrives (client.py lines 16-22): raise on
status ≥ 400 without reading the body, return `None` on an empty body,
otherwise return the parsed JSON. -/
def requestResult (resp : HttpResponse) : Except ReqError (Option Json) :=
  if 400 ≤ resp.status then Except.error (ReqError.httpError resp.status)
  else if resp.body == "" then Except.ok Option.none
  else match json_loads resp.body with
    | Option.some j => Except.ok (Option.some j)
    | Option.none => Except.error ReqError.parseFailure

example : json_loads "" = Option.none := by rfl
example : json_loads "true" = Option.some (Json.bool true) := by rfl
example : json_loads "\x7b\"ok\":true\x7d" =
    Option.some (Json.obj [("ok", Json.bool true)]) := by rfl
example : json_loads " [1, -2, \"a b\", null] " =
    Option.some (Json.arr
      [Json.num 1, Json.num (-2), Json.str "a b", Json.null]) := by rfl
example : json_loads "01" = Option.none := by rfl
example : requestResult ⟨200, ""⟩ = Except.ok Option.none := by rfl
example : requestResult ⟨404, "ignored"⟩ =
    Except.error (ReqError.httpError 404) := by rfl

/-- The client's construction-time configuration (client.py lines 8-11):
a base URL and optional headers, stored verbatim by the dataclass. -/
structure RepoTokenizerClient where
  base_url : String
  headers : Option (List (String × String))

/-- The URL `_request` builds (client.py line 14): the f-string
concatenates the stored base URL and the path verbatim. -/
def requestUrl (c : RepoTokenizerClient) (path : String) : String :=
  c.base_url ++ path

/-- The outgoing GET request: URL plus the headers attached at
client.py line 15 (`self.headers or \x7b\x7d`). -/
structure HttpRequest where
  url : String
  reqHeaders : List (String × String)

/-- One invocation of a public client method, with its arguments. -/
inductive ApiCall where
  | list_files (inc exc ref : Option String)
  | list_chunks (path lang ref : Option String) (max_tokens : Option Int)
  | get_file (path : String) (ref : Option String)
  | get_chunk (chunk_id : String) (ref : Option String)
  | search (query_text : String) (path_glob ref : Option String)
  | search_symbols (query_text ref : Option String)

/-- The path each method passes to `_request`. -/
def callPath : ApiCall → String
  | ApiCall.list_files inc exc ref => listFilesPath inc exc ref
  | ApiCall.list_chunks path lang ref mt => listChunksPath path lang ref mt
  | ApiCall.get_file path ref => getFilePath path ref
  | ApiCall.get_chunk cid ref => getChunkPath cid ref
  | ApiCall.search q pg ref => searchPath q pg ref
  | ApiCall.search_symbols q ref => searchSymbolsPath q ref

/-- Executing one method call: every method only reads `self.base_url` and
`self.headers` into locals and never assigns to a field of `self`
(client.py lines 13-66 contain no such assignment), so the client state
after the call is the state before it, returned here explicitly alongside
the request that was issued. -/
def performCall (c : RepoTokenizerClient) (call : ApiCall) :
    RepoTokenizerClient × HttpRequest :=
  (c, ⟨requestUrl c (callPath call), c.headers.getD []⟩)

/-- The per-parameter inclusion rule the truthiness-filtering operations
implement: a falsy optional argument contributes nothing, a truthy one
contributes exactly one entry. -/
def optEntry (k : String) (o : Option String) : List (String × PyVal) :=
  if truthy (optStr o) then [(k, optStr o)] else []

/-- The per-parameter inclusion rule of `list_chunks`: only `None` is
dropped; empty strings and zero are kept. -/
def nnParam (k : String) (v : PyVal) : List (String × PyVal) :=
  if isNone v then [] else [(k, v)]

example : listFilesPath (Option.some "a b") Option.none Option.none =
    "/files?include=a+b" := by decide
example : listChunksPath (Option.some "") Option.none Option.none
    Option.none = "/chunks?path=" := by decide
example : listChunksPath Option.none Option.none Option.none
    (Option.some 0) = "/chunks?maxTokens=0" := by decide
example : getChunkPath "a b" (Option.some "main") =
    "/chunks/a%20b?ref=main" := by decide
example : getChunkPath "a/b" Option.none = "/chunks/a/b" := by decide
example : getFilePath "" Option.none = "/file?path=" := by decide
example : searchPath "" Option.none Option.none = "/search?q=" := by decide

theorem quoteChars_append (sb : List Nat) (l1 l2 : List Char) :
    quoteChars sb (l1 ++ l2) = quoteChars sb l1 ++ quoteChars sb l2 := by
  induction l1 with
  | nil => simp [quoteChars, String.empty_append]
  | cons c cs ih => simp [quoteChars, ih, String.append_assoc]

theorem quote_append (a b : String) :
    quote (a ++ b) = quote a ++ quote b := by
  simp [quote, String.data_append, quoteChars_append]

/-- C1 (amended).  For `list_files`, `get_file`, `get_chunk`, `search` and
`search_symbols`, an optional parameter whose value is absent or falsy
(empty string) never appears in the constructed query, and a present
non-empty optional value contributes exactly one entry, percent-encoded;
`list_chunks` instead drops only absent (`None`) values, so empty strings
and zero do appear in its query. -/
theorem optional_param_inclusion_policy :
    (∀ inc exc ref, listFilesParams inc exc ref =
      optEntry "include" inc ++ optEntry "exclude" exc ++
        optEntry "ref" ref) ∧
    (∀ path lang ref mt, listChunksParams path lang ref mt =
      nnParam "path" (optStr path) ++ nnParam "lang" (optStr lang) ++
        nnParam "ref" (optStr ref) ++ nnParam "maxTokens" (optInt mt)) ∧
    (∀ p ref, getFileParams p ref =
      [("path", PyVal.str p)] ++ optEntry "ref" ref) ∧
    (∀ q pg ref, searchParams q pg ref =
      [("q", PyVal.str q)] ++ optEntry "pathGlob" pg ++
        optEntry "ref" ref) ∧
    (∀ q ref, searchSymbolsParams q ref =
      optEntry "q" q ++ optEntry "ref" ref) ∧
    (∀ cid r, getChunkPath cid (Option.some r) =
      if r = "" then "/chunks/" ++ quote cid
      else "/chunks/" ++ quote cid ++ ("?ref=" ++ quote r)) ∧
    (∀ s, ¬ s = "" →
      listFilesPath (Option.some s) Option.none Option.none =
        "/files?include=" ++ quotePlus s) := by
  refine ⟨fun inc exc ref => ?_, fun path lang ref mt => ?_,
    fun p ref => rfl, fun q pg ref => rfl, fun q ref => rfl,
    fun cid r => ?_, fun s h => ?_⟩
  · simp only [listFilesParams, optEntry, List.filter_cons, List.filter_nil]
    split_ifs <;> simp
  · cases path <;> cases lang <;> cases ref <;> cases mt <;> rfl
  · by_cases h : r = ""
    · simp [getChunkPath, h, String.append_empty]
    · simp [getChunkPath, h]
  · have hp : listFilesParams (Option.some s) Option.none Option.none =
        [("include", PyVal.str s)] := by
      simp [listFilesParams, optStr, truthy, List.filter_cons,
        List.filter_nil, h]
    simp only [listFilesPath, hp]
    rfl

/-- Witness for C1 (amended) at the concrete non-empty value `a&b`. -/
theorem optional_param_inclusion_policy_witness :
    listFilesPath (Option.some "a&b") Option.none Option.none =
      "/files?include=" ++ quotePlus "a&b" :=
  optional_param_inclusion_policy.2.2.2.2.2.2 "a&b" (by decide)

/-- Counterexample to C1 as stated: `list_chunks` with the empty-string
`path` argument puts `path=` into the query instead of omitting it. -/
theorem listChunks_includes_empty_path_param :
    listChunksPath (Option.some "") Option.none Option.none Option.none =
      "/chunks?path=" ∧
    listChunksPath (Option.some "") Option.none Option.none Option.none ≠
      "/chunks" := ⟨by decide, by decide⟩

/-- C2 (amended).  `list_chunks(max_tokens=0)` INCLUDES `maxTokens=0` in
the query string: the `list_chunks` comprehension drops an entry only when
its value is `None`, never merely for being falsy. -/
theorem listChunks_filter_only_none :
    (∀ mt : Int, listChunksParams Option.none Option.none Option.none
      (Option.some mt) = [("maxTokens", PyVal.int mt)]) ∧
    listChunksPath Option.none Option.none Option.none (Option.some 0) =
      "/chunks?maxTokens=0" := ⟨fun mt => rfl, by decide⟩

/-- Counterexample to C2 as stated: with `max_tokens = 0` the requested
path is `/chunks?maxTokens=0`, not the bare `/chunks` that omission would
produce. -/
theorem listChunks_maxTokens_zero_included :
    listChunksPath Option.none Option.none Option.none (Option.some 0) =
      "/chunks?maxTokens=0" ∧
    listChunksPath Option.none Option.none Option.none (Option.some 0) ≠
      "/chunks" := ⟨by decide, by decide⟩

/-- C3.  A response with status ≥ 400 makes `_request` fail with the
generic error carrying exactly the status code — the result is the same
for any two responses with equal status, so the body is not consulted —
and a response with status < 400 never produces that error kind. -/
theorem request_http_error_status :
    ∀ resp : HttpResponse,
      (400 ≤ resp.status →
        requestResult resp =
          Except.error (ReqError.httpError resp.status)) ∧
      (∀ other : HttpResponse, other.status = resp.status →
        400 ≤ resp.status → requestResult other = requestResult resp) ∧
      (resp.status < 400 →
        ∀ s, requestResult resp ≠
          Except.error (ReqError.httpError s)) := by
  intro resp
  refine ⟨fun h => ?_, fun other hst h => ?_, fun h s => ?_⟩
  · simp [requestResult, h]
  · simp [requestResult, hst, h]
  · simp only [requestResult]
    rw [if_neg (by omega)]
    by_cases hb : resp.body == ""
    · simp [hb]
    · simp only [hb, Bool.false_eq_true, if_false]
      cases hj : json_loads resp.body <;> simp [hj]

/-- Witness for C3: status 404 yields the generic error with code 404
regardless of body, status 503 twice with different bodies agrees, and the
theorem's error-free branch is exercised at status 200. -/
theorem request_http_error_status_witness :
    requestResult ⟨404, "nf"⟩ =
      Except.error (ReqError.httpError 404) ∧
    requestResult ⟨503, "x"⟩ = requestResult ⟨503, "y"⟩ ∧
    requestResult ⟨200, ""⟩ ≠
      Except.error (ReqError.httpError 200) :=
  ⟨(request_http_error_status ⟨404, "nf"⟩).1 (by decide),
   (request_http_error_status ⟨503, "y"⟩).2.1 ⟨503, "x"⟩ rfl (by decide),
   (request_http_error_status ⟨200, ""⟩).2.2 (by decide) 200⟩

/-- C4.  For a response with status < 400: an empty body yields the
explicit absent value, and a body that parses as JSON yields exactly the
parsed value — in particular status 200 with body `{"ok":true}` yields
that JSON object. -/
theorem request_success_decoding :
    (∀ resp : HttpResponse, resp.status < 400 → resp.body = "" →
      requestResult resp = Except.ok Option.none) ∧
    (∀ resp : HttpResponse, resp.status < 400 → ∀ j,
      json_loads resp.body = Option.some j →
      requestResult resp = Except.ok (Option.some j)) ∧
    requestResult ⟨200, "\x7b\"ok\":true\x7d"⟩ =
      Except.ok (Option.some (Json.obj [("ok", Json.bool true)])) := by
  refine ⟨fun resp h hb => ?_, fun resp h j hj => ?_, by rfl⟩
  · simp only [requestResult]
    rw [if_neg (by omega)]
    simp [hb]
  · simp only [requestResult]
    rw [if_neg (by omega)]
    by_cases hb : resp.body = ""
    · rw [hb] at hj
      rw [show json_loads "" = Option.none from rfl] at hj
      simp at hj
    · simp [hb, hj]

/-- Witness for C4 at status 200 with an empty body and with body
`true`. -/
theorem request_success_decoding_witness :
    requestResult ⟨200, ""⟩ = Except.ok Option.none ∧
    requestResult ⟨200, "true"⟩ =
      Except.ok (Option.some (Json.bool true)) :=
  ⟨request_success_decoding.1 ⟨200, ""⟩ (by decide) rfl,
   request_success_decoding.2.1 ⟨200, "true"⟩ (by decide)
     (Json.bool true) rfl⟩

/-- C5.  `get_chunk("a b", ref="main")` requests exactly
`/chunks/a%20b?ref=main`: the chunk id is percent-encoded as a path
segment and the ref is percent-encoded independently. -/
theorem getChunk_percent_encoding_example :
    getChunkPath "a b" (Option.some "main") =
      "/chunks/a%20b?ref=main" := by decide

/-- C6.  The request URL is the verbatim concatenation of the stored base
URL and the assembled path; in particular a trailing slash on the base and
a leading slash on the path survive as a double slash — no normalization
happens. -/
theorem request_url_verbatim_concat :
    (∀ c path, requestUrl c path = c.base_url ++ path) ∧
    (∀ b p h, requestUrl ⟨b ++ "/", h⟩ ("/" ++ p) = b ++ "//" ++ p) := by
  refine ⟨fun c path => rfl, fun b p h => ?_⟩
  apply String.ext
  simp [requestUrl, String.data_append, List.append_assoc]

/-- C7.  Whenever an operation's assembled parameter mapping is empty, the
requested path is the bare endpoint path and contains no `?` at all. -/
theorem empty_params_no_question_mark :
    (∀ inc exc ref, listFilesParams inc exc ref = [] →
      listFilesPath inc exc ref = "/files" ∧
        ('?' ∈ (listFilesPath inc exc ref).data → False)) ∧
    (∀ p l r mt, listChunksParams p l r mt = [] →
      listChunksPath p l r mt = "/chunks" ∧
        ('?' ∈ (listChunksPath p l r mt).data → False)) ∧
    (∀ q r, searchSymbolsParams q r = [] →
      searchSymbolsPath q r = "/search/symbols" ∧
        ('?' ∈ (searchSymbolsPath q r).data → False)) := by
  refine ⟨fun inc exc ref h => ?_, fun p l r mt h => ?_,
    fun q r h => ?_⟩
  · have heq : listFilesPath inc exc ref = "/files" := by
      simp [listFilesPath, h, String.append_empty]
    exact ⟨heq, by rw [heq]; decide⟩
  · have heq : listChunksPath p l r mt = "/chunks" := by
      simp [listChunksPath, h, String.append_empty]
    exact ⟨heq, by rw [heq]; decide⟩
  · have heq : searchSymbolsPath q r = "/search/symbols" := by
      simp [searchSymbolsPath, h, String.append_empty]
    exact ⟨heq, by rw [heq]; decide⟩

/-- Witness for C7: all-absent arguments give empty mappings and the bare
endpoint paths. -/
theorem empty_params_no_question_mark_witness :
    listFilesPath Option.none Option.none Option.none = "/files" ∧
    listChunksPath Option.none Option.none Option.none Option.none =
      "/chunks" ∧
    searchSymbolsPath Option.none Option.none = "/search/symbols" :=
  ⟨(empty_params_no_question_mark.1 Option.none Option.none Option.none
      rfl).1,
   (empty_params_no_question_mark.2.1 Option.none Option.none Option.none
      Option.none rfl).1,
   (empty_params_no_question_mark.2.2 Option.none Option.none rfl).1⟩

/-- C8.  No call mutates the client's stored base URL or headers: the
client state after any call equals the construction-time state, and a
second call issues the same request whether or not another call preceded
it. -/
theorem client_config_immutable :
    (∀ (c : RepoTokenizerClient) (call : ApiCall),
      (performCall c call).1.base_url = c.base_url ∧
      (performCall c call).1.headers = c.headers) ∧
    (∀ (c : RepoTokenizerClient) (c1 c2 : ApiCall),
      (performCall (performCall c c1).1 c2).2 = (performCall c c2).2) :=
  ⟨fun _ _ => ⟨rfl, rfl⟩, fun _ _ _ => rfl⟩

/-- C9.  Required string parameters are included even when empty:
`get_file("")` requests `/file?path=` and `search("")` requests
`/search?q=`; in general the required parameter appears with its
`quote_plus`-encoded value. -/
theorem required_params_included_when_empty :
    getFilePath "" Option.none = "/file?path=" ∧
    searchPath "" Option.none Option.none = "/search?q=" ∧
    (∀ p, getFilePath p Option.none = "/file?path=" ++ quotePlus p) ∧
    (∀ q, searchPath q Option.none Option.none =
      "/search?q=" ++ quotePlus q) :=
  ⟨by decide, by decide, fun p => rfl, fun q => rfl⟩

/-- C10.  `quote`'s default safe set leaves `/` unencoded, so a chunk id
containing a slash produces extra path segments: `get_chunk("a/b")`
requests `/chunks/a/b`, and in general the slash splits the encoded id. -/
theorem getChunk_slash_unencoded :
    getChunkPath "a/b" Option.none = "/chunks/a/b" ∧
    (∀ a b, getChunkPath (a ++ "/" ++ b) Option.none =
      "/chunks/" ++ quote a ++ "/" ++ quote b) := by
  refine ⟨by decide, fun a b => ?_⟩
  show "/chunks/" ++ quote (a ++ "/" ++ b) ++ "" = _
  rw [String.append_empty, quote_append, quote_append]
  apply String.ext
  simp [String.data_append, List.append_assoc, quote]
  rfl
